import Mathlib

/-!
Verification of the import orchestration engine of the `iwk_db-import`
repository: a shallow embedding in Lean 4 of the sheet normalizer
(`src/excel/reader.py`), the FK propagation resolver
(`src/services/fk_propagation.py`), the batch insert executor
(`src/db/batch_insert.py`) and the file/sheet orchestrator
(`src/services/orchestrator.py`), together with theorems settling the
spec claims about them.

Modelling conventions:
* spreadsheet/database cell values are the inductive `Value`
  (`null` stands for Python `None` / pandas `NaN`);
* Python dicts are association lists updated with `aset` (first-insertion
  key order, last value wins, matching dict semantics);
* Python exceptions are `Except` results;
* the psycopg2 cursor is the `Cursor` record of oracles for the outcomes
  of `execute`/`fetchall`, plus `description`; transaction commands that
  the orchestrator issues are collected in a `TxCmd` trace.
-/

set_option autoImplicit false

namespace IwkImport

/-- A spreadsheet / database cell value.  `null` models Python `None` and
pandas `NaN`; numbers that appear in the claims are integers. -/
inductive Value where
  | null : Value
  | str : String → Value
  | int : Int → Value
  deriving Repr, DecidableEq

/-- `str(c)` for a cell, as pandas renders it: `NaN` prints as `"nan"`. -/
def cellStr : Value → String
  | Value.null => "nan"
  | Value.str s => s
  | Value.int n => toString n

/-- Python `dict.get`: value of the first entry with the given key. -/
def aget? {κ α : Type} [BEq κ] (l : List (κ × α)) (k : κ) : Option α :=
  (l.find? (fun kv => kv.1 == k)).map (fun kv => kv.2)

/-- Python `dict[k] = v`: update the entry in place if the key exists,
else append it (dict insertion order). -/
def aset {κ α : Type} [BEq κ] (l : List (κ × α)) (k : κ) (v : α) : List (κ × α) :=
  if l.any (fun kv => kv.1 == k) then
    l.map (fun kv => if kv.1 == k then (k, v) else kv)
  else
    l ++ [(k, v)]

/-- `"." in s` (Python membership test on the string). -/
def hasDot (s : String) : Bool := s.data.contains '.'

/-- Split a character list at the first `'.'`. -/
def splitCharsAtDot : List Char → Option (List Char × List Char)
  | [] => none
  | c :: cs =>
    if c = '.' then some ([], cs)
    else
      match splitCharsAtDot cs with
      | none => none
      | some (l, r) => some (c :: l, r)

/-- Python `s.split(".", 1)`: the part before the first dot and the part
after it (when no dot exists the whole string is the first component,
mirroring `[s][0]`; guarded call sites always check `hasDot` first). -/
def splitFirstDot (s : String) : String × String :=
  match splitCharsAtDot s.data with
  | none => (s, "")
  | some (l, r) => (String.mk l, String.mk r)

/-- Python's default `str.strip` whitespace characters. -/
def isPySpace (c : Char) : Bool :=
  c == ' ' || c == '\t' || c == '\n' || c == '\r' || c == '\x0b' || c == '\x0c'

/-- Python `s.strip()`: drop leading and trailing whitespace. -/
def pyStrip (s : String) : String :=
  String.mk (((s.data.dropWhile isPySpace).reverse.dropWhile isPySpace).reverse)

/-- Python `s.upper()` (ASCII case mapping). -/
def pyUpper (s : String) : String := String.mk (s.data.map Char.toUpper)

/-- Python `s.endswith(suffix)`. -/
def strEndsWith (s suffix : String) : Bool := suffix.data.isSuffixOf s.data

/-- First index of a string in a list (`list.index`), if present. -/
def idxOf2 (s : String) : List String → Option Nat
  | [] => none
  | x :: xs => if x == s then some 0 else (idxOf2 s xs).map (fun n => n + 1)

/-- Code-point comparison of strings, used only to render the sorted
missing-column list deterministically. -/
def charsLe : List Char → List Char → Bool
  | [], _ => true
  | _ :: _, [] => false
  | a :: as, b :: bs =>
    if a.toNat < b.toNat then true
    else if b.toNat < a.toNat then false
    else charsLe as bs

def strLeB (a b : String) : Bool := charsLe a.data b.data

def insertSorted (s : String) : List String → List String
  | [] => [s]
  | x :: xs => if strLeB s x then s :: x :: xs else x :: insertSorted s xs

/-- Python `sorted` on strings. -/
def sortStrs (l : List String) : List String := l.foldr insertSorted []

/-! ## Sheet normalizer — `src/excel/reader.py` -/

/-- The exceptions `normalize_sheet` can raise:
`SheetHeaderError` and `MissingColumnsError`. -/
inductive NormError where
  | header (msg : String) : NormError
  | missingColumns (missing : List String) : NormError
  deriving Repr, DecidableEq

/-- Output of `normalize_sheet`: sheet name, ordered header columns, and
normalized row dictionaries. -/
structure SheetData where
  sheet_name : String
  columns : List String
  rows : List (List (String × Value))
  deriving Repr, DecidableEq

/-- The condition `null_sentinels and upper in null_sentinels` from
`normalize_sheet` (an absent or empty set is falsy). -/
def sentinelMatch (null_sentinels : Option (List String)) (upper : String) : Bool :=
  match null_sentinels with
  | none => false
  | some l => !l.isEmpty && l.contains upper

/-- The configured default for a column: `default_values[col]` when
`default_values and col in default_values` holds, else `none`. -/
def defaultFor (col : String) (default_values : Option (List (String × Value))) :
    Option Value :=
  match default_values with
  | none => none
  | some dv => aget? dv col

/-- Per-cell normalization, the body of the row loop of `normalize_sheet`
(lines 98–115 of `src/excel/reader.py`): NaN cells take the configured
default or null; string cells are null-sanitized against the sentinel set
first, then an all-whitespace string with a configured default takes the
default; anything else is kept verbatim. -/
def normalizeCell (col : String) (val : Value)
    (default_values : Option (List (String × Value)))
    (null_sentinels : Option (List String)) : Value :=
  match val with
  | Value.null =>
    match defaultFor col default_values with
    | some d => d
    | none => Value.null
  | Value.str s =>
    let stripped := pyStrip s
    let upper := pyUpper stripped
    if sentinelMatch null_sentinels upper then Value.null
    else if stripped == "" then
      match defaultFor col default_values with
      | some d => d
      | none => Value.str s
    else Value.str s
  | v => v

/-- Build one `row_dict` by zipping header columns with the raw cells
(`zip(columns, raw.tolist(), strict=False)` stops at the shorter list)
and assigning normalized cells in order (dict semantics). -/
def buildRowDict (columns : List String) (raw : List Value)
    (default_values : Option (List (String × Value)))
    (null_sentinels : Option (List String)) : List (String × Value) :=
  (List.zip columns raw).foldl
    (fun acc cv => aset acc cv.1 (normalizeCell cv.1 cv.2 default_values null_sentinels)) []

/-- A data row that is entirely blank (`raw.isna().all()`). -/
def rowAllBlank (raw : List Value) : Bool := raw.all (fun v => v == Value.null)

/-- The local `columns` of `normalize_sheet`: the second physical row,
each cell rendered to a string and stripped. -/
def normCols (df : List (List Value)) : List String :=
  (df.getD 1 []).map (fun c => pyStrip (cellStr c))

/-- The local `rows` of `normalize_sheet`: the data rows from the third
physical row on, entirely-blank rows dropped, each remaining row turned
into a normalized dict. -/
def normRows (df : List (List Value))
    (default_values : Option (List (String × Value)))
    (null_sentinels : Option (List String)) : List (List (String × Value)) :=
  ((df.drop 2).filter (fun raw => !rowAllBlank raw)).map
    (fun raw => buildRowDict (normCols df) raw default_values null_sentinels)

/-- The local `missing` of `normalize_sheet`: expected columns absent
from the header, sorted deterministically (set difference, `sorted`). -/
def missingCols (expected columns : List String) : List String :=
  sortStrs ((expected.filter (fun c => !columns.contains c)).dedup)

/-- `normalize_sheet` from `src/excel/reader.py`: row 1 is an ignorable
title, row 2 (index 1) the header, rows 3+ the data; fully blank data rows
are dropped; expected columns are validated after row construction. -/
def normalize_sheet (df : List (List Value)) (sheet_name : String)
    (expected_columns : Option (List String))
    (default_values : Option (List (String × Value)))
    (null_sentinels : Option (List String)) : Except NormError SheetData :=
  if df.length < 2 then
    Except.error (NormError.header ("sheet " ++ sheet_name ++ " lacks second row header"))
  else
    match expected_columns with
    | some expected =>
      if (missingCols expected (normCols df)).isEmpty then
        Except.ok ⟨sheet_name, normCols df, normRows df default_values null_sentinels⟩
      else Except.error (NormError.missingColumns (missingCols expected (normCols df)))
    | none =>
      Except.ok ⟨sheet_name, normCols df, normRows df default_values null_sentinels⟩

/-- Whether a normalization outcome is a `SheetHeaderError`. -/
def isHeaderErr {α : Type} : Except NormError α → Bool
  | Except.error (NormError.header _) => true
  | _ => false

/-! ## FK propagation resolver — `src/services/fk_propagation.py` -/

/-- One entry of the list-shaped `fk_propagations` config: a dict whose
`"parent"`/`"child"` keys may be absent (`entry.get` yields `None`). -/
structure FkPair where
  parent : Option String
  child : Option String
  deriving Repr, DecidableEq

/-- The two accepted shapes of `ImportConfig.fk_propagations`: the new
list form (whose entries may be non-dict objects, modelled as `none`) and
the legacy dict form mapping `"parent.col"` to `"child.col"` strings. -/
inductive FkProps where
  | listForm (entries : List (Option FkPair)) : FkProps
  | dictForm (pairs : List (String × String)) : FkProps
  deriving Repr, DecidableEq

/-- A value of the `sequences` reference map: either a sequence-name
string or a dict that may carry a `"column"` field. -/
inductive SeqVal where
  | s (v : String) : SeqVal
  | dict (column : Option String) : SeqVal
  deriving Repr, DecidableEq

/-- The loader `ImportConfig` fields that the embedded services read
(`sheet_mappings`, `timezone` and `database` are carried separately or
unused by the functions under verification). -/
structure ImportConfig where
  source_directory : String
  sequences : List (String × SeqVal)
  fk_propagations : FkProps
  deriving Repr, DecidableEq

/-- Resolved parent→child relationship (`FKPropagationMap` dataclass). -/
structure FKPropagationMap where
  parent_table : String
  parent_identifier_column : String
  child_fk_column : String
  parent_pk_column : String
  deriving Repr, DecidableEq

/-- `needs_returning` from `src/services/fk_propagation.py` (lines
46–94): true iff some configured mapping, in either config shape, has
this table as parent and a child table not yet processed.  Entries that
are not dicts, lack a parent/child, or miss a dot are skipped. -/
def needs_returning (table_name : String) (config : ImportConfig)
    (processed_tables : List String) : Bool :=
  match config.fk_propagations with
  | FkProps.listForm entries =>
    entries.any fun e =>
      match e with
      | none => false
      | some pair =>
        match pair.parent, pair.child with
        | some parent_ref, some child_ref =>
          !(parent_ref == "") && !(child_ref == "") &&
          hasDot parent_ref && hasDot child_ref &&
          ((splitFirstDot parent_ref).1 == table_name) &&
          !(processed_tables.contains (splitFirstDot child_ref).1)
        | _, _ => false
  | FkProps.dictForm pairs =>
    pairs.any fun kv =>
      hasDot kv.1 && ((splitFirstDot kv.1).1 == table_name) &&
      hasDot kv.2 && !(processed_tables.contains (splitFirstDot kv.2).1)

/-- The `_append` helper of `build_fk_propagation_maps`: skip entries
missing a dot on either side, split both references on the first dot and
record the mapping; the code assigns the parent identifier column itself
as `parent_pk_column`. -/
def fkAppend (acc : List FKPropagationMap) (parent_ref child_ref : String) :
    List FKPropagationMap :=
  if hasDot parent_ref && hasDot child_ref then
    let pt := splitFirstDot parent_ref
    let ct := splitFirstDot child_ref
    acc ++ [⟨pt.1, pt.2, ct.2, pt.2⟩]
  else acc

/-- `build_fk_propagation_maps` from `src/services/fk_propagation.py`
(lines 97–136): collect mappings from either config shape.  In the list
shape non-dict entries are skipped and falsy (`None` or empty)
parent/child references are skipped. -/
def build_fk_propagation_maps (config : ImportConfig) : List FKPropagationMap :=
  match config.fk_propagations with
  | FkProps.listForm entries =>
    entries.foldl
      (fun acc e =>
        match e with
        | some pair =>
          match pair.parent, pair.child with
          | some parent_ref, some child_ref =>
            if parent_ref == "" || child_ref == "" then acc
            else fkAppend acc parent_ref child_ref
          | _, _ => acc
        | none => acc) []
  | FkProps.dictForm pairs =>
    pairs.foldl (fun acc kv => fkAppend acc kv.1 kv.2) []

/-- Result of a parent insert with RETURNING (`ParentPKResult`). -/
structure ParentPKResult where
  table_name : String
  returned_values : List (List Value)
  pk_column_index : Nat
  deriving Repr, DecidableEq

/-- `build_parent_pk_map`: identifier value → generated PK, silently
dropping returned rows too short for both indices. -/
def build_parent_pk_map (parent_result : ParentPKResult)
    (parent_identifier_column_index : Nat) : List (Value × Value) :=
  parent_result.returned_values.foldl
    (fun pk_map row =>
      if max parent_result.pk_column_index parent_identifier_column_index < row.length then
        aset pk_map (row.getD parent_identifier_column_index Value.null)
          (row.getD parent_result.pk_column_index Value.null)
      else pk_map) []

/-- `propagate_foreign_keys` from `src/services/fk_propagation.py`
(lines 165–216): rewrite each child row's FK cell with the parent PK
looked up by the row's identifier value; raise `FKPropagationError` on a
row too short for either index or an identifier absent from the map. -/
def propagate_foreign_keys (child_rows : List (List Value))
    (fk_mapping : FKPropagationMap) (parent_pk_map : List (Value × Value))
    (child_fk_column_index child_identifier_column_index : Nat) :
    Except String (List (List Value)) :=
  match child_rows with
  | [] => Except.ok []
  | row :: rest =>
    if row.length ≤ max child_fk_column_index child_identifier_column_index then
      Except.error ("Row has insufficient columns: " ++ toString row.length ++
        " columns, need at least " ++
        toString (max child_fk_column_index child_identifier_column_index + 1))
    else
      match aget? parent_pk_map (row.getD child_identifier_column_index Value.null) with
      | none =>
        Except.error ("Parent identifier " ++
          reprStr (row.getD child_identifier_column_index Value.null) ++
          " not found in parent PK map.")
      | some parent_pk =>
        match propagate_foreign_keys rest fk_mapping parent_pk_map
            child_fk_column_index child_identifier_column_index with
        | Except.error e => Except.error e
        | Except.ok out => Except.ok (row.set child_fk_column_index parent_pk :: out)

/-- `get_column_index`: index of a column name, `FKPropagationError` when
absent. -/
def get_column_index (column_name : String) (columns : List String) :
    Except String Nat :=
  match idxOf2 column_name columns with
  | some i => Except.ok i
  | none => Except.error ("Column " ++ column_name ++ " not found in columns")

/-! ## Batch insert executor — `src/db/batch_insert.py` -/

/-- Result record of `batch_insert` (`InsertResult` dataclass). -/
structure InsertResult where
  inserted_rows : Nat
  returned_values : Option (List (List Value))
  deriving Repr, DecidableEq

/-- One invocation of the store's grouped-insert primitive, as the
orchestrator issues it: target table, insert columns, positional row
values and the RETURNING flag. -/
structure InsertCall where
  table : String
  columns : List String
  rows : List (List Value)
  returning : Bool
  deriving Repr, DecidableEq

/-- The psycopg2 cursor, reduced to the oracles the embedded code
consults: whether BEGIN/COMMIT succeed, the `description` column
metadata, the outcome of `execute_values` (`some msg` = raised) and of
the RETURNING `fetchall`. -/
structure Cursor where
  beginOk : Bool
  commitOk : Bool
  description : Option (List String)
  execOutcome : InsertCall → Option String
  fetchOutcome : InsertCall → Except String (List (List Value))

/-- Observable outcome of one `batch_insert` call: the wrapped result,
how many times `execute_values` ran and how many times the timing
callback ran. -/
structure BatchOutcome where
  result : Except String InsertResult
  executeCalls : Nat
  callbackCalls : Nat

/-- `batch_insert` from `src/db/batch_insert.py` (lines 48–140).  The
driver-availability check precedes the empty-row short-circuit; on a
non-empty row set `execute_values` runs once and the timing callback, if
supplied, runs exactly once (in the `finally` block, so also on
failure); with `returning` the inserted rows are fetched afterwards.
`page_size` and `blob_columns` shape only the SQL text, not the control
flow modelled here. -/
def batch_insert (execAvailable : Bool) (cursor : Cursor) (table : String)
    (columns : List String) (rows : List (List Value)) (returning : Bool)
    (page_size : Nat) (hasCallback : Bool)
    (blob_columns : Option (List String)) : BatchOutcome :=
  if !execAvailable then
    ⟨Except.error "psycopg2 not available", 0, 0⟩
  else if rows.isEmpty then
    ⟨Except.ok ⟨0, if returning then some [] else none⟩, 0, 0⟩
  else
    let _ := page_size
    let _ := blob_columns
    let call : InsertCall := ⟨table, columns, rows, returning⟩
    let cb := if hasCallback then 1 else 0
    match cursor.execOutcome call with
    | some msg => ⟨Except.error msg, 1, cb⟩
    | none =>
      if returning then
        match cursor.fetchOutcome call with
        | Except.error e =>
          ⟨Except.error ("failed fetching RETURNING rows: " ++ e), 1, cb⟩
        | Except.ok fetched => ⟨Except.ok ⟨rows.length, some fetched⟩, 1, cb⟩
      else ⟨Except.ok ⟨rows.length, none⟩, 1, cb⟩

/-! ## File/sheet orchestrator — `src/services/orchestrator.py` -/

/-- Per-sheet domain mapping (`SheetMappingConfig` dataclass of
`src/models/config_models.py`); the column sets are carried as lists with
membership semantics. -/
structure SheetMapping where
  sheet_name : String
  table_name : String
  sequence_columns : List String
  fk_propagation_columns : List String
  default_values : Option (List (String × Value))
  null_sentinels : Option (List String)
  blob_columns : Option (List String)
  deriving Repr, DecidableEq

/-- The derived `expected_columns` property: union of the default-value
keys, the FK propagation columns and the blob columns. -/
def SheetMapping.expectedColumns (m : SheetMapping) : List String :=
  (match m.default_values with
   | some dv => dv.map (fun kv => kv.1)
   | none => []) ++ m.fk_propagation_columns ++
  (match m.blob_columns with
   | some b => b
   | none => [])

/-- `sheet_mapping.expected_columns or None` (an empty set is falsy). -/
def SheetMapping.expectedOpt (m : SheetMapping) : Option (List String) :=
  if m.expectedColumns.isEmpty then none else some m.expectedColumns

/-- Transaction commands the orchestrator issues on the cursor. -/
inductive TxCmd where
  | beginTx : TxCmd
  | commitTx : TxCmd
  | rollbackTx : TxCmd
  deriving Repr, DecidableEq

/-- Per-file status (`FileStatus`); the terminal states. -/
inductive FileStatus where
  | success : FileStatus
  | failed : FileStatus
  deriving Repr, DecidableEq

/-- Per-sheet processing record (`SheetProcess` model, the fields the
orchestrator fills). -/
structure SheetProcess where
  sheet_name : String
  table_name : String
  ignored_columns : List String
  inserted_rows : Nat
  error : Option String
  deriving Repr, DecidableEq

/-- The run-scoped parent-key lookup: table name → (key → generated key)
map, exactly as `parent_pk_lookup` is populated by the orchestrator. -/
abbrev PkLookup := List (String × List (Value × Value))

/-- Result of `_process_single_sheet` together with the updated
run-scoped state and the batch-insert invocations it issued. -/
structure SheetStep where
  sp : SheetProcess
  lookup : PkLookup
  processed : List String
  calls : List InsertCall

/-- Render a normalization failure the way the orchestrator stores it in
`SheetProcess.error` (`str(e)`). -/
def normErrMsg : NormError → String
  | NormError.header m => m
  | NormError.missingColumns missing =>
    "missing columns: " ++ String.intercalate ", " missing

/-- The inline best-effort FK fill of `_process_single_sheet` (lines
606–633) for one configured FK column: skip columns not inserted, find
the first propagation map whose child FK column matches, skip when the
parent map is absent or empty, then overwrite only `None` cells using the
parent map's values cyclically by row index. -/
def fkFillCol (insert_columns : List String) (fk_maps : List FKPropagationMap)
    (lookup : PkLookup) (rows : List (List Value)) (fk_col : String) :
    List (List Value) :=
  if !insert_columns.contains fk_col then rows
  else
    match fk_maps.filter
        (fun m => strEndsWith m.child_fk_column ("." ++ fk_col) ||
                  m.child_fk_column == fk_col) with
    | [] => rows
    | m :: _ =>
      match aget? lookup m.parent_table with
      | none => rows
      | some parent_map =>
        if parent_map.isEmpty then rows
        else
          match idxOf2 fk_col insert_columns with
          | none => rows
          | some col_index =>
            let pk_list := parent_map.map (fun kv => kv.2)
            (rows.enum.map (fun rv =>
              if rv.2.getD col_index (Value.str "") == Value.null then
                rv.2.set col_index (pk_list.getD (rv.1 % pk_list.length) Value.null)
              else rv.2))

/-- The guarded FK-fill loop: runs only when the sheet declares FK
propagation columns and a cursor is present. -/
def fkFill (m : SheetMapping) (cursorPresent : Bool) (insert_columns : List String)
    (fk_maps : List FKPropagationMap) (lookup : PkLookup)
    (rows : List (List Value)) : List (List Value) :=
  if m.fk_propagation_columns.isEmpty || !cursorPresent then rows
  else m.fk_propagation_columns.foldl (fkFillCol insert_columns fk_maps lookup) rows

/-- The parent-PK-column candidates inferred in `_process_single_sheet`
(lines 666–675) from the `sequences` keys: the column part of a matching
`"table.col"` key, or a dotless key verbatim. -/
def candidatePkCols (cfg : ImportConfig) (table_name : String) : List String :=
  cfg.sequences.foldl
    (fun acc kv =>
      if hasDot kv.1 then
        if (splitFirstDot kv.1).1 == table_name then acc ++ [(splitFirstDot kv.1).2]
        else acc
      else acc ++ [kv.1]) []

/-- The PK column index detection (lines 677–695): the first candidate
found in the cursor's `description`, else the fallback index 0. -/
def pkColIdx (cur : Cursor) (cands : List String) : Nat :=
  match cur.description with
  | some col_names =>
    if col_names.isEmpty then 0
    else (cands.findSome? (fun cand => idxOf2 cand col_names)).getD 0
  | none => 0

/-- The parent-key lookup built after a RETURNING insert (lines
697–700): a dict from `rv[pk_col_index]` to `rv[pk_col_index]` over the
returned rows long enough to index. -/
def buildReturnedLookup (returned : List (List Value)) (pk_col_index : Nat) :
    List (Value × Value) :=
  returned.foldl
    (fun acc rv =>
      if pk_col_index < rv.length then
        aset acc (rv.getD pk_col_index Value.null) (rv.getD pk_col_index Value.null)
      else acc) []

/-- `_process_single_sheet` from `src/services/orchestrator.py` (lines
505–812): normalize, short-circuit empty sheets, build insert rows
excluding sequence columns, decide RETURNING, apply the inline FK fill,
run the batch insert (mock mode simply counts the built rows), and on a
RETURNING insert with returned rows store the parent lookup and mark the
table processed.  Validation and insert failures become the
`SheetProcess.error` field. -/
def processSingleSheet (sheet_name : String) (df : List (List Value))
    (m : SheetMapping) (cursor : Option Cursor)
    (fk_maps : List FKPropagationMap) (lookup : PkLookup)
    (processed : List String) (cfg : ImportConfig) : SheetStep :=
  match normalize_sheet df sheet_name m.expectedOpt m.default_values m.null_sentinels with
  | Except.error e =>
    ⟨⟨sheet_name, m.table_name, [], 0, some (normErrMsg e)⟩, lookup, processed, []⟩
  | Except.ok sd =>
    if sd.rows.isEmpty then
      ⟨⟨sheet_name, m.table_name, m.sequence_columns ++ m.fk_propagation_columns,
        0, none⟩, lookup, processed, []⟩
    else
      let ignored := m.sequence_columns
      let insert_columns := sd.columns.filter (fun c => !ignored.contains c)
      let table_name := m.table_name
      let do_returning := cursor.isSome && needs_returning table_name cfg processed
      let insert_rows0 := sd.rows.map
        (fun rd => insert_columns.map (fun c => (aget? rd c).getD Value.null))
      let insert_rows := fkFill m cursor.isSome insert_columns fk_maps lookup insert_rows0
      match cursor with
      | none =>
        ⟨⟨sheet_name, table_name, ignored, insert_rows.length, none⟩,
          lookup, processed, []⟩
      | some cur =>
        let call : InsertCall := ⟨table_name, insert_columns, insert_rows, do_returning⟩
        let b := batch_insert true cur table_name insert_columns insert_rows
          do_returning 1000 false none
        match b.result with
        | Except.error msg =>
          ⟨⟨sheet_name, table_name, [], 0, some msg⟩, lookup, processed, [call]⟩
        | Except.ok r =>
          match do_returning, r.returned_values with
          | true, some (rv0 :: rvs) =>
            let pk_col_index := pkColIdx cur (candidatePkCols cfg table_name)
            let newMap := buildReturnedLookup (rv0 :: rvs) pk_col_index
            ⟨⟨sheet_name, table_name, ignored, r.inserted_rows, none⟩,
              aset lookup table_name newMap,
              (if processed.contains table_name then processed
               else processed ++ [table_name]),
              [call]⟩
          | _, _ =>
            ⟨⟨sheet_name, table_name, ignored, r.inserted_rows, none⟩,
              lookup, processed, [call]⟩

/-- Accumulated outcome of the configuration-ordered sheet loop of
`_process_single_file` (lines 359–400). -/
structure LoopOut where
  sheets : List SheetProcess
  rows : Nat
  skipped : Nat
  lookup : PkLookup
  processed : List String
  calls : List InsertCall
  failed : Bool

/-- The sheet loop: mapped sheets absent from the workbook are counted
skipped; each present sheet is processed with the threaded run-scoped
state; the first sheet error stops the loop (`break`) with the failure
flag set. -/
def sheetLoop (cursor : Option Cursor) (fk_maps : List FKPropagationMap)
    (cfg : ImportConfig) (raw_sheets : List (String × List (List Value))) :
    List (String × SheetMapping) → PkLookup → List String → LoopOut
  | [], lk, pt => ⟨[], 0, 0, lk, pt, [], false⟩
  | (name, m) :: rest, lk, pt =>
    match aget? raw_sheets name with
    | none =>
      let r := sheetLoop cursor fk_maps cfg raw_sheets rest lk pt
      ⟨r.sheets, r.rows, r.skipped + 1, r.lookup, r.processed, r.calls, r.failed⟩
    | some df =>
      let s := processSingleSheet name df m cursor fk_maps lk pt cfg
      match s.sp.error with
      | some _ =>
        ⟨[s.sp], s.sp.inserted_rows, 0, s.lookup, s.processed, s.calls, true⟩
      | none =>
        let r := sheetLoop cursor fk_maps cfg raw_sheets rest s.lookup s.processed
        ⟨s.sp :: r.sheets, s.sp.inserted_rows + r.rows, r.skipped,
          r.lookup, r.processed, s.calls ++ r.calls, r.failed⟩

/-- Outcome of `_process_single_file`: terminal status, per-file
aggregates, the sheet records, the transaction-command trace, the insert
invocations and the updated run-scoped state. -/
structure FileOutcome where
  status : FileStatus
  total_rows : Nat
  skipped_sheets : Nat
  sheets : List SheetProcess
  trace : List TxCmd
  calls : List InsertCall
  lookup : PkLookup
  processed : List String

/-- Finalization of one file from its sheet-loop outcome: a sheet
failure has already rolled back inside the loop (when a cursor exists)
and fails the file; otherwise COMMIT when a cursor exists, a commit
failure rolling back and failing the file. -/
def fileFromLoop (cursor : Option Cursor) (beginTrace : List TxCmd)
    (L : LoopOut) : FileOutcome :=
  if L.failed then
    ⟨FileStatus.failed, L.rows, L.skipped, L.sheets,
      beginTrace ++ (if cursor.isSome then [TxCmd.rollbackTx] else []),
      L.calls, L.lookup, L.processed⟩
  else
    match cursor with
    | some cur =>
      if cur.commitOk then
        ⟨FileStatus.success, L.rows, L.skipped, L.sheets,
          beginTrace ++ [TxCmd.commitTx], L.calls, L.lookup, L.processed⟩
      else
        ⟨FileStatus.failed, L.rows, L.skipped, L.sheets,
          beginTrace ++ [TxCmd.commitTx, TxCmd.rollbackTx],
          L.calls, L.lookup, L.processed⟩
    | none =>
      ⟨FileStatus.success, L.rows, L.skipped, L.sheets, beginTrace,
        L.calls, L.lookup, L.processed⟩

/-- The body of `_process_single_file` after a successful BEGIN: a parse
failure rolls back (when a cursor exists) and fails the file; otherwise
the configuration-ordered sheet loop runs and the file is finalized from
its outcome. -/
def processFileBody (mappings : List (String × SheetMapping))
    (parse : Except String (List (String × List (List Value))))
    (cursor : Option Cursor) (fk_maps : List FKPropagationMap)
    (lookup : PkLookup) (processed : List String) (cfg : ImportConfig)
    (beginTrace : List TxCmd) : FileOutcome :=
  match parse with
  | Except.error _ =>
    ⟨FileStatus.failed, 0, 0, [],
      beginTrace ++ (if cursor.isSome then [TxCmd.rollbackTx] else []),
      [], lookup, processed⟩
  | Except.ok raw_sheets =>
    fileFromLoop cursor beginTrace
      (sheetLoop cursor fk_maps cfg raw_sheets mappings lookup processed)

/-- `_process_single_file` from `src/services/orchestrator.py` (lines
284–502): BEGIN when a cursor exists (a BEGIN failure fails the file
immediately), then the parse/sheet-loop/commit body. -/
def processSingleFile (mappings : List (String × SheetMapping))
    (parse : Except String (List (String × List (List Value))))
    (cursor : Option Cursor) (fk_maps : List FKPropagationMap)
    (lookup : PkLookup) (processed : List String) (cfg : ImportConfig) :
    FileOutcome :=
  match cursor with
  | some cur =>
    if !cur.beginOk then
      ⟨FileStatus.failed, 0, 0, [], [TxCmd.beginTx], [], lookup, processed⟩
    else
      processFileBody mappings parse cursor fk_maps lookup processed cfg [TxCmd.beginTx]
  | none =>
    processFileBody mappings parse cursor fk_maps lookup processed cfg []

/-- Aggregate outcome of `process_all`'s per-file loop (lines 207–252):
only successful files contribute rows; skipped-sheet counts accumulate
always; one status per file in order; all transaction commands issued
during the run. -/
structure RunOutcome where
  success_files : Nat
  failed_files : Nat
  total_inserted_rows : Nat
  skipped_sheets : Nat
  statuses : List FileStatus
  trace : List TxCmd

/-- The per-file loop of `process_all`, threading the run-scoped
`parent_pk_lookup` and `processed_tables` through every file
unconditionally. -/
def runFiles (mappings : List (String × SheetMapping)) (cursor : Option Cursor)
    (fk_maps : List FKPropagationMap) (cfg : ImportConfig) :
    List (Except String (List (String × List (List Value)))) →
    PkLookup → List String → RunOutcome
  | [], _, _ => ⟨0, 0, 0, 0, [], []⟩
  | f :: rest, lk, pt =>
    let r := processSingleFile mappings f cursor fk_maps lk pt cfg
    let t := runFiles mappings cursor fk_maps cfg rest r.lookup r.processed
    if r.status = FileStatus.success then
      ⟨t.success_files + 1, t.failed_files, r.total_rows + t.total_inserted_rows,
        r.skipped_sheets + t.skipped_sheets, r.status :: t.statuses,
        r.trace ++ t.trace⟩
    else
      ⟨t.success_files, t.failed_files + 1, t.total_inserted_rows,
        r.skipped_sheets + t.skipped_sheets, r.status :: t.statuses,
        r.trace ++ t.trace⟩

/-- `process_all` (files already enumerated and parsed by the workbook
reader interface): build the FK propagation maps once, then run every
file with the shared run-scoped state. -/
def processAll (mappings : List (String × SheetMapping))
    (files : List (Except String (List (String × List (List Value)))))
    (cursor : Option Cursor) (cfg : ImportConfig) : RunOutcome :=
  runFiles mappings cursor (build_fk_propagation_maps cfg) cfg files [] []

/-! ## Spec-side definitions used to state the claims -/

/-- The well-formed (parent table, child table) pairs a configuration
declares, as the spec describes them: one pair per mapping entry, in
either config shape, skipping malformed entries exactly as
`needs_returning` does. -/
def entryPair : Option FkPair → Option (String × String)
  | some pair =>
    match pair.parent, pair.child with
    | some p, some c =>
      if !(p == "") && !(c == "") && hasDot p && hasDot c then
        some ((splitFirstDot p).1, (splitFirstDot c).1)
      else none
    | _, _ => none
  | none => none

def dictPair (kv : String × String) : Option (String × String) :=
  if hasDot kv.1 && hasDot kv.2 then
    some ((splitFirstDot kv.1).1, (splitFirstDot kv.2).1)
  else none

def configPairs (config : ImportConfig) : List (String × String) :=
  match config.fk_propagations with
  | FkProps.listForm entries => entries.filterMap entryPair
  | FkProps.dictForm pairs => pairs.filterMap dictPair

/-- A child row on which `propagate_foreign_keys` must fail: too short
for either index, or identifier value absent from the parent key map. -/
def rowOffends (parent_pk_map : List (Value × Value)) (fk_idx id_idx : Nat)
    (row : List Value) : Bool :=
  decide (row.length ≤ max fk_idx id_idx) ||
  (aget? parent_pk_map (row.getD id_idx Value.null)).isNone

/-- Whether an `Except` outcome is a success. -/
def isOkE {ε α : Type} : Except ε α → Bool
  | Except.ok _ => true
  | Except.error _ => false

/-! ## Concrete configurations and scenario data used by the claim
theorems (drawn from the repository's own tests and the spec's literal
parent-then-child example) -/

/-- The configuration of `tests/unit/test_fk_build_maps_sequences.py`:
two list-form propagation pairs and a `sequences` map holding both a
`"p1.id"` table.column key and a dict value with a `"column"` field. -/
def cfgSeqTest : ImportConfig :=
  ⟨"", [("p1.id", SeqVal.s "p1_id_seq"), ("legacy_seq", SeqVal.dict (some "custom_pk"))],
    FkProps.listForm [some ⟨some "p1.identifier", some "c1.fk1"⟩,
                      some ⟨some "p2.identifier", some "c2.fk2"⟩]⟩

/-- A parent `p` with two configured children `c1` and `c2`. -/
def cfgTwoChildren : ImportConfig :=
  ⟨"", [], FkProps.listForm [some ⟨some "p.a", some "c1.b"⟩,
                             some ⟨some "p.a", some "c2.b"⟩]⟩

/-- The literal parent-then-child configuration: parent `customers`
matched by `name`, child `orders` receiving `customer_id`; the parent PK
sequence is declared under `"customers.id"`. -/
def cfgParentChild : ImportConfig :=
  ⟨"data", [("customers.id", SeqVal.s "seq_customers")],
    FkProps.listForm [some ⟨some "customers.name", some "orders.customer_id"⟩]⟩

/-- A cursor whose inserts succeed and whose RETURNING fetch yields the
mock generated keys 101 for "Alice" and 102 for "Bob". -/
def cursorParentChild : Cursor :=
  { beginOk := true, commitOk := true,
    description := some ["id", "name", "email"],
    execOutcome := fun _ => none,
    fetchOutcome := fun _ => Except.ok
      [[Value.int 101, Value.str "Alice", Value.str "a@x"],
       [Value.int 102, Value.str "Bob", Value.str "b@x"]] }

def parentMappingPC : SheetMapping :=
  ⟨"Customers", "customers", ["id"], [], none, none, none⟩

def childMappingPC : SheetMapping :=
  ⟨"Orders", "orders", ["id"], ["customer_id"], none, none, none⟩

/-- Parent sheet grid: title, header `id,name,email`, two data rows. -/
def parentGridPC : List (List Value) :=
  [[Value.str "Customer Data", Value.str "Parent", Value.str "Sheet"],
   [Value.str "id", Value.str "name", Value.str "email"],
   [Value.null, Value.str "Alice", Value.str "a@x"],
   [Value.null, Value.str "Bob", Value.str "b@x"]]

/-- Child sheet grid referencing the parents by name in the FK column. -/
def childGridPC : List (List Value) :=
  [[Value.str "Order Information", Value.str "Child", Value.str "Sheet"],
   [Value.str "id", Value.str "customer_id", Value.str "amount"],
   [Value.null, Value.str "Alice", Value.int 1500],
   [Value.null, Value.str "Bob", Value.int 2500]]

def fkMapsPC : List FKPropagationMap := build_fk_propagation_maps cfgParentChild

/-- Processing the parent sheet of the literal example. -/
def stepParentPC : SheetStep :=
  processSingleSheet "Customers" parentGridPC parentMappingPC (some cursorParentChild)
    fkMapsPC [] [] cfgParentChild

/-- Processing the child sheet of the literal example after the parent. -/
def stepChildPC : SheetStep :=
  processSingleSheet "Orders" childGridPC childMappingPC (some cursorParentChild)
    fkMapsPC stepParentPC.lookup stepParentPC.processed cfgParentChild

/-- An all-succeeding cursor used for the orchestration witnesses. -/
def cursorOkW : Cursor :=
  { beginOk := true, commitOk := true, description := none,
    execOutcome := fun _ => none,
    fetchOutcome := fun _ => Except.ok [] }

/-- A mapping with no special columns (witness data). -/
def plainMappingW : SheetMapping := ⟨"A", "t_a", [], [], none, none, none⟩

def plainMappingBW : SheetMapping := ⟨"B", "t_b", [], [], none, none, none⟩

/-- A grid with fewer than two physical rows: normalization fails. -/
def badGridW : List (List Value) := [[Value.str "only title"]]

/-- A valid two-data-row grid. -/
def goodGridW : List (List Value) :=
  [[Value.str "title"], [Value.str "col_a"], [Value.int 1], [Value.int 2]]

/-- Witness file whose first sheet fails and whose second is fine. -/
def failingFileW : Except String (List (String × List (List Value))) :=
  Except.ok [("A", badGridW), ("B", goodGridW)]

def mappingsW : List (String × SheetMapping) :=
  [("A", plainMappingW), ("B", plainMappingBW)]

def cfgEmptyW : ImportConfig := ⟨"", [], FkProps.listForm []⟩

/-! ## Claim theorems -/

/-- C1: the claim says the orchestrator's run-scoped lookup maps each
parent row's identifier value ("Alice", "Bob") to its generated key
(101, 102) and that the child sheet's FK column holds 101 and 102 after
propagation, before a child insert with `returning=false`.  Evaluating
the orchestrator on the literal scenario shows the code instead stores a
lookup keyed by the generated key itself (101 ↦ 101, 102 ↦ 102) and
leaves "Alice" and "Bob" untouched in the child rows handed to the child
insert (the inline fill only overwrites `None` cells); only the
`returning=false` part of the claim holds. -/
theorem c1_orchestrator_diverges_from_literal_scenario :
    stepParentPC.calls =
      [⟨"customers", ["name", "email"],
        [[Value.str "Alice", Value.str "a@x"], [Value.str "Bob", Value.str "b@x"]],
        true⟩] ∧
    stepParentPC.lookup =
      [("customers", [(Value.int 101, Value.int 101), (Value.int 102, Value.int 102)])] ∧
    aget? ((aget? stepParentPC.lookup "customers").getD []) (Value.str "Alice") = none ∧
    stepChildPC.calls =
      [⟨"orders", ["customer_id", "amount"],
        [[Value.str "Alice", Value.int 1500], [Value.str "Bob", Value.int 2500]],
        false⟩] := by
  refine ⟨?_, ?_, ?_, ?_⟩ <;> decide

/-- C2: the claim says `build_fk_propagation_maps` infers
`parent_pk_column` from the `sequences` map (a `"table.column"` key, else
a dict value's `"column"` field, else the default).  On the
configuration of the repository's own unit test
`tests/unit/test_fk_build_maps_sequences.py` the code instead returns
the parent identifier column for every mapping and never consults
`sequences`, so the test's expected values `"id"` and `"custom_pk"`
never appear. -/
theorem c2_build_maps_ignores_sequences :
    (build_fk_propagation_maps cfgSeqTest).map (fun m => m.parent_pk_column) =
      ["identifier", "identifier"] ∧
    (build_fk_propagation_maps cfgSeqTest).any
      (fun m => m.parent_table == "p1" && m.parent_pk_column == "id") = false ∧
    (build_fk_propagation_maps cfgSeqTest).any
      (fun m => m.parent_table == "p2" && m.parent_pk_column == "custom_pk") = false := by
  refine ⟨?_, ?_, ?_⟩ <;> decide

/-- C3 counterexample: with a parent `p` having two configured children
`c1`, `c2` and nothing processed, `needs_returning` is true and both
children witness the claim's existential; yet adding either single
witness child to the processed set leaves the result true, so "adding
that child table to P and re-querying flips the result to false" fails
at this concrete input for every choice of witness. -/
theorem c3_single_child_flip_fails :
    needs_returning "p" cfgTwoChildren [] = true ∧
    ("p", "c1") ∈ configPairs cfgTwoChildren ∧
    ("p", "c2") ∈ configPairs cfgTwoChildren ∧
    needs_returning "p" cfgTwoChildren ["c1"] = true ∧
    needs_returning "p" cfgTwoChildren ["c2"] = true := by
  refine ⟨?_, ?_, ?_, ?_, ?_⟩ <;> decide

/-- C5 counterexample: a whitespace-only cell for a column with a
configured default, when the empty string sits in the sentinel set,
normalizes to null — not to the default the claim's precedence rule
("whitespace-only-with-default wins over sentinel matching") demands,
because the code checks the sentinel set first. -/
theorem c5_sentinel_beats_whitespace_default :
    normalize_sheet [[Value.str "t"], [Value.str "col"], [Value.str " "]] "S" none
      (some [("col", Value.str "D")]) (some [""]) =
      Except.ok ⟨"S", ["col"], [[("col", Value.null)]]⟩ ∧
    Value.null ≠ Value.str "D" := by
  exact ⟨by rfl, by decide⟩

/-- C7: `batch_insert` on an empty row collection (with the driver
available) returns zero inserted rows — and an empty returned list
exactly when `returning` is set — without running the execute primitive
or the timing callback, whatever the table, columns, flags, page size or
callback are. -/
theorem c7_empty_batch_short_circuit (cur : Cursor) (table : String)
    (columns : List String) (returning : Bool) (page_size : Nat)
    (hasCallback : Bool) (blob : Option (List String)) :
    batch_insert true cur table columns [] returning page_size hasCallback blob =
      ⟨Except.ok ⟨0, if returning then some [] else none⟩, 0, 0⟩ := rfl

/-- C10: with the driver primitive unavailable, `batch_insert` raises
`BatchInsertError "psycopg2 not available"` for every call — the empty
row collection included, because the availability check precedes the
empty-row short-circuit — and neither the execute primitive nor the
timing callback runs. -/
theorem c10_driver_unavailable_always_raises (cur : Cursor) (table : String)
    (columns : List String) (rows : List (List Value)) (returning : Bool)
    (page_size : Nat) (hasCallback : Bool) (blob : Option (List String)) :
    batch_insert false cur table columns rows returning page_size hasCallback blob =
      ⟨Except.error "psycopg2 not available", 0, 0⟩ := rfl

lemma rowOffends_of_short {pm : List (Value × Value)} {fk id : Nat}
    {r : List Value} (hlen : r.length ≤ max fk id) :
    rowOffends pm fk id r = true := by
  unfold rowOffends
  rw [decide_eq_true hlen, Bool.true_or]

lemma rowOffends_of_long {pm : List (Value × Value)} {fk id : Nat}
    {r : List Value} (hlen : ¬r.length ≤ max fk id) :
    rowOffends pm fk id r = (aget? pm (r.getD id Value.null)).isNone := by
  unfold rowOffends
  rw [decide_eq_false hlen, Bool.false_or]

lemma pfk_ok_iff (fkm : FKPropagationMap) (pm : List (Value × Value)) (fk id : Nat) :
    ∀ rows : List (List Value),
      isOkE (propagate_foreign_keys rows fkm pm fk id) = true ↔
        rows.all (fun r => !rowOffends pm fk id r) = true
  | [] => by simp [propagate_foreign_keys, isOkE]
  | r :: rest => by
    have ih := pfk_ok_iff fkm pm fk id rest
    rw [List.all_cons]
    unfold propagate_foreign_keys
    by_cases hlen : r.length ≤ max fk id
    · rw [if_pos hlen, rowOffends_of_short hlen]
      simp [isOkE]
    · rw [if_neg hlen, rowOffends_of_long hlen]
      cases hget : aget? pm (r.getD id Value.null) with
      | none => simp [isOkE]
      | some pk =>
        cases hrec : propagate_foreign_keys rest fkm pm fk id with
        | error e =>
          rw [hrec] at ih
          simp [isOkE] at ih ⊢
          exact ih
        | ok out =>
          rw [hrec] at ih
          simp [isOkE] at ih ⊢
          exact ih

lemma pfk_ok_val (fkm : FKPropagationMap) (pm : List (Value × Value)) (fk id : Nat) :
    ∀ (rows : List (List Value)) (out : List (List Value)),
      propagate_foreign_keys rows fkm pm fk id = Except.ok out →
      out = rows.map
        (fun r => r.set fk ((aget? pm (r.getD id Value.null)).getD Value.null))
  | [], out => by
    intro h
    unfold propagate_foreign_keys at h
    rw [Except.ok.injEq] at h
    rw [← h]
    rfl
  | r :: rest, out => by
    intro h
    unfold propagate_foreign_keys at h
    by_cases hlen : r.length ≤ max fk id
    · rw [if_pos hlen] at h
      cases h
    · rw [if_neg hlen] at h
      cases hget : aget? pm (r.getD id Value.null) with
      | none =>
        rw [hget] at h
        simp at h
      | some pk =>
        rw [hget] at h
        cases hrec : propagate_foreign_keys rest fkm pm fk id with
        | error e =>
          rw [hrec] at h
          simp at h
        | ok out' =>
          rw [hrec] at h
          simp only [Except.ok.injEq] at h
          have ih := pfk_ok_val fkm pm fk id rest out' hrec
          rw [← h, List.map_cons, ← ih, hget]
          rfl

/-- C4: `propagate_foreign_keys` either succeeds, returning a row list of
the input's length in which every row's FK cell at the given index holds
the parent-key-map value for that row's identifier, or it fails — and it
fails exactly when some row is too short for either index or some row's
identifier value is absent from the parent key map; an unresolved
reference is never passed through. -/
theorem c4_propagation_totality (rows : List (List Value))
    (fkm : FKPropagationMap) (pm : List (Value × Value)) (fk id : Nat) :
    (isOkE (propagate_foreign_keys rows fkm pm fk id) = true ↔
      rows.all (fun r => !rowOffends pm fk id r) = true) ∧
    (∀ out, propagate_foreign_keys rows fkm pm fk id = Except.ok out →
      out.length = rows.length ∧
      out = rows.map
        (fun r => r.set fk ((aget? pm (r.getD id Value.null)).getD Value.null))) := by
  refine ⟨pfk_ok_iff fkm pm fk id rows, fun out h => ?_⟩
  have hv := pfk_ok_val fkm pm fk id rows out h
  exact ⟨by simp [hv], hv⟩

/-- C4 witness: on a concrete two-row child list with both identifiers
present, propagation succeeds and rewrites the FK cells. -/
theorem c4_propagation_totality_witness :
    propagate_foreign_keys
        [[Value.null, Value.str "Alice"], [Value.null, Value.str "Bob"]]
        ⟨"customers", "name", "customer_id", "name"⟩
        [(Value.str "Alice", Value.int 101), (Value.str "Bob", Value.int 102)]
        0 1 =
      Except.ok [[Value.int 101, Value.str "Alice"], [Value.int 102, Value.str "Bob"]] ∧
    [[Value.int 101, Value.str "Alice"], [Value.int 102, Value.str "Bob"]].length =
      [[Value.null, Value.str "Alice"], [Value.null, Value.str "Bob"]].length := by
  refine ⟨by rfl, ?_⟩
  exact ((c4_propagation_totality
    [[Value.null, Value.str "Alice"], [Value.null, Value.str "Bob"]]
    ⟨"customers", "name", "customer_id", "name"⟩
    [(Value.str "Alice", Value.int 101), (Value.str "Bob", Value.int 102)]
    0 1).2 _ (by rfl)).1

lemma entry_pred_iff (t : String) (P : List String) (e : Option FkPair) :
    (match e with
      | none => false
      | some pair =>
        match pair.parent, pair.child with
        | some parent_ref, some child_ref =>
          !(parent_ref == "") && !(child_ref == "") &&
          hasDot parent_ref && hasDot child_ref &&
          ((splitFirstDot parent_ref).1 == t) &&
          !(P.contains (splitFirstDot child_ref).1)
        | _, _ => false) = true ↔
    ∃ pr, entryPair e = some pr ∧ pr.1 = t ∧ pr.2 ∉ P := by
  cases e with
  | none => simp [entryPair]
  | some pair =>
    obtain ⟨op, oc⟩ := pair
    cases op with
    | none => simp [entryPair]
    | some p =>
      cases oc with
      | none => simp [entryPair]
      | some c =>
        simp only [entryPair]
        by_cases hg : (!(p == "") && !(c == "") && hasDot p && hasDot c) = true
        · rw [if_pos hg, hg]
          simp
        · have hg2 : (!(p == "") && !(c == "") && hasDot p && hasDot c) = false :=
            Bool.not_eq_true _ ▸ hg
          rw [if_neg hg, hg2]
          simp

lemma dict_pred_iff (t : String) (P : List String) (kv : String × String) :
    (hasDot kv.1 && ((splitFirstDot kv.1).1 == t) &&
      hasDot kv.2 && !(P.contains (splitFirstDot kv.2).1)) = true ↔
    ∃ pr, dictPair kv = some pr ∧ pr.1 = t ∧ pr.2 ∉ P := by
  cases h1 : hasDot kv.1 with
  | false => simp [dictPair, h1]
  | true =>
    cases h2 : hasDot kv.2 with
    | false => simp [dictPair, h1, h2]
    | true => simp [dictPair, h1, h2]

/-- The code\'s `needs_returning` is true exactly when the configuration
declares a parent→child pair with this table as parent and an
unprocessed child (the spec-side reading of R-007). -/
lemma needs_returning_true_iff (t : String) (cfg : ImportConfig) (P : List String) :
    needs_returning t cfg P = true ↔
      ∃ pr ∈ configPairs cfg, pr.1 = t ∧ pr.2 ∉ P := by
  unfold needs_returning configPairs
  cases hfp : cfg.fk_propagations with
  | listForm entries =>
    rw [List.any_eq_true]
    constructor
    · rintro ⟨e, he, hpred⟩
      obtain ⟨pr, hep, hq⟩ := (entry_pred_iff t P e).mp hpred
      exact ⟨pr, List.mem_filterMap.mpr ⟨e, he, hep⟩, hq⟩
    · rintro ⟨pr, hmem, hq⟩
      obtain ⟨e, he, hep⟩ := List.mem_filterMap.mp hmem
      exact ⟨e, he, (entry_pred_iff t P e).mpr ⟨pr, hep, hq⟩⟩
  | dictForm pairs =>
    rw [List.any_eq_true]
    constructor
    · rintro ⟨kv, hkv, hpred⟩
      obtain ⟨pr, hep, hq⟩ := (dict_pred_iff t P kv).mp hpred
      exact ⟨pr, List.mem_filterMap.mpr ⟨kv, hkv, hep⟩, hq⟩
    · rintro ⟨pr, hmem, hq⟩
      obtain ⟨kv, hkv, hep⟩ := List.mem_filterMap.mp hmem
      exact ⟨kv, hkv, (dict_pred_iff t P kv).mpr ⟨pr, hep, hq⟩⟩

/-- C3 (amended): `needs_returning(t, config, P)` is true iff some
configured parent→child mapping — in either config shape — has parent
table `t` and a child table not in `P`; the result is antitone in `P`
(growing `P` never turns false into true, so it can become true again
only by removing a child); and adding all of `t`'s configured child
tables to `P` flips the result to false.  (Adding one witness child only
flips it when that child was the sole unprocessed one, which is the
correction to the claim.) -/
theorem c3_needs_returning_amended (t : String) (cfg : ImportConfig)
    (P : List String) :
    (needs_returning t cfg P = true ↔
      ∃ pr ∈ configPairs cfg, pr.1 = t ∧ pr.2 ∉ P) ∧
    (∀ P' : List String, P ⊆ P' → needs_returning t cfg P' = true →
      needs_returning t cfg P = true) ∧
    needs_returning t cfg
      (P ++ (configPairs cfg).filterMap
        (fun pr => if pr.1 = t then some pr.2 else none)) = false := by
  refine ⟨needs_returning_true_iff t cfg P, ?_, ?_⟩
  · intro P' hsub h
    obtain ⟨pr, hmem, ht, hnot⟩ := (needs_returning_true_iff t cfg P').mp h
    exact (needs_returning_true_iff t cfg P).mpr
      ⟨pr, hmem, ht, fun hin => hnot (hsub hin)⟩
  · have hno : ¬ (needs_returning t cfg
        (P ++ (configPairs cfg).filterMap
          (fun pr => if pr.1 = t then some pr.2 else none)) = true) := by
      rw [needs_returning_true_iff]
      rintro ⟨pr, hmem, ht, hnot⟩
      exact hnot (List.mem_append_right _
        (List.mem_filterMap.mpr ⟨pr, hmem, by rw [if_pos ht]⟩))
    exact Bool.not_eq_true _ ▸ hno

/-- C3 witness: the antitone part applied at the two-children
configuration, discharging `[] ⊆ ["c1"]` and the truth of the larger
query concretely. -/
theorem c3_needs_returning_amended_witness :
    ([] : List String) ⊆ ["c1"] ∧
    needs_returning "p" cfgTwoChildren ["c1"] = true ∧
    needs_returning "p" cfgTwoChildren [] = true := by
  refine ⟨List.nil_subset _, by decide, ?_⟩
  exact (c3_needs_returning_amended "p" cfgTwoChildren []).2.1 ["c1"]
    (List.nil_subset _) (by decide)

lemma length_filter_split {α : Type} (p : α → Bool) :
    ∀ l : List α,
      (l.filter p).length + (l.filter (fun a => !p a)).length = l.length
  | [] => rfl
  | a :: l => by
    have ih := length_filter_split p l
    cases h : p a <;> simp [List.filter_cons, h] <;> omega

/-- C6: `normalize_sheet` fails with a header error exactly on grids of
fewer than 2 physical rows; any produced output has as columns the
trimmed second-row header in order, and as many rows as the physical
rows beyond the first two minus the all-blank data rows, which are
dropped. -/
theorem c6_normalize_shape (df : List (List Value)) (name : String)
    (exp : Option (List String)) (dv : Option (List (String × Value)))
    (ns : Option (List String)) :
    (isHeaderErr (normalize_sheet df name exp dv ns) = true ↔ df.length < 2) ∧
    (∀ sd, normalize_sheet df name exp dv ns = Except.ok sd →
      sd.columns = (df.getD 1 []).map (fun c => pyStrip (cellStr c)) ∧
      sd.rows.length =
        (df.length - 2) - ((df.drop 2).filter (fun r => rowAllBlank r)).length) := by
  have hcount : ∀ sd : SheetData,
      (⟨name, normCols df, normRows df dv ns⟩ : SheetData) = sd →
      sd.columns = (df.getD 1 []).map (fun c => pyStrip (cellStr c)) ∧
      sd.rows.length =
        (df.length - 2) - ((df.drop 2).filter (fun r => rowAllBlank r)).length := by
    intro sd hsd
    rw [← hsd]
    refine ⟨rfl, ?_⟩
    have hsplit := length_filter_split (fun r => rowAllBlank r) (df.drop 2)
    have hdl : (df.drop 2).length = df.length - 2 := List.length_drop 2 df
    show (normRows df dv ns).length = _
    unfold normRows
    rw [List.length_map]
    have heq : (List.filter (fun raw => !rowAllBlank raw) (df.drop 2)).length =
        (df.drop 2).length - (List.filter (fun r => rowAllBlank r) (df.drop 2)).length := by
      omega
    rw [heq, hdl]
  unfold normalize_sheet
  by_cases hlen : df.length < 2
  · rw [if_pos hlen]
    refine ⟨by simp [isHeaderErr, hlen], fun sd h => by cases h⟩
  · rw [if_neg hlen]
    cases exp with
    | none =>
      refine ⟨by simp [isHeaderErr, hlen], fun sd h => ?_⟩
      rw [Except.ok.injEq] at h
      exact hcount sd h
    | some expected =>
      dsimp only
      by_cases hmiss : (missingCols expected (normCols df)).isEmpty = true
      · rw [if_pos hmiss]
        refine ⟨by simp [isHeaderErr, hlen], fun sd h => ?_⟩
        rw [Except.ok.injEq] at h
        exact hcount sd h
      · rw [if_neg hmiss]
        refine ⟨by simp [isHeaderErr, hlen], fun sd h => by cases h⟩

/-- C6 witness: a five-row grid with one all-blank data row yields two
emitted rows (5 − 2 − 1) and the trimmed header in order. -/
theorem c6_normalize_shape_witness :
    normalize_sheet
        [[Value.str "title"], [Value.str " a ", Value.str "b"],
         [Value.int 1, Value.int 2], [Value.null, Value.null],
         [Value.null, Value.int 3]] "S" none none none =
      Except.ok ⟨"S", ["a", "b"],
        [[("a", Value.int 1), ("b", Value.int 2)],
         [("a", Value.null), ("b", Value.int 3)]]⟩ ∧
    ["a", "b"] = ([[Value.str "title"], [Value.str " a ", Value.str "b"],
         [Value.int 1, Value.int 2], [Value.null, Value.null],
         [Value.null, Value.int 3]].getD 1 []).map (fun c => pyStrip (cellStr c)) ∧
    ([[("a", Value.int 1), ("b", Value.int 2)],
      [("a", Value.null), ("b", Value.int 3)]] : List (List (String × Value))).length = 2 := by
  refine ⟨by rfl, ?_, ?_⟩
  · exact ((c6_normalize_shape
      [[Value.str "title"], [Value.str " a ", Value.str "b"],
       [Value.int 1, Value.int 2], [Value.null, Value.null],
       [Value.null, Value.int 3]] "S" none none none).2 _ (by rfl)).1.symm ▸ rfl
  · decide

/-- C5 (amended): in `normalize_sheet`'s per-cell normalization the
sentinel check runs first: a string cell whose stripped upper-cased
value is in the sentinel set normalizes to null regardless of any
configured default — including whitespace-only cells when the empty
string is in the sentinel set; a whitespace-only string cell takes the
column's configured default only when no sentinel matched; a blank (NaN)
cell always takes the configured default when one exists. -/
theorem c5_sentinel_precedence_amended (col s : String)
    (dv : Option (List (String × Value))) (ns : Option (List String)) :
    (sentinelMatch ns (pyUpper (pyStrip s)) = true →
      normalizeCell col (Value.str s) dv ns = Value.null) ∧
    (sentinelMatch ns (pyUpper (pyStrip s)) = false → pyStrip s = "" →
      normalizeCell col (Value.str s) dv ns = (defaultFor col dv).getD (Value.str s)) ∧
    normalizeCell col Value.null dv ns = (defaultFor col dv).getD Value.null := by
  refine ⟨fun h => ?_, fun h he => ?_, ?_⟩
  · simp [normalizeCell, h]
  · rw [he] at h
    simp [normalizeCell, he, h]
    cases defaultFor col dv <;> simp
  · simp [normalizeCell]
    cases defaultFor col dv <;> simp

/-- C5 witness: with sentinel set `{"NULL"}` (no empty string) a
whitespace-only cell with a configured default takes the default, and a
`"NULL"` cell normalizes to null despite the default. -/
theorem c5_sentinel_precedence_amended_witness :
    sentinelMatch (some ["NULL"]) (pyUpper (pyStrip " ")) = false ∧
    pyStrip " " = "" ∧
    normalizeCell "c" (Value.str " ") (some [("c", Value.int 7)]) (some ["NULL"]) =
      Value.int 7 ∧
    sentinelMatch (some ["NULL"]) (pyUpper (pyStrip " null ")) = true ∧
    normalizeCell "c" (Value.str " null ") (some [("c", Value.int 7)]) (some ["NULL"]) =
      Value.null := by
  refine ⟨by decide, by decide, ?_, by decide, ?_⟩
  · exact (c5_sentinel_precedence_amended "c" " " (some [("c", Value.int 7)])
      (some ["NULL"])).2.1 (by decide) (by decide)
  · exact (c5_sentinel_precedence_amended "c" " null " (some [("c", Value.int 7)])
      (some ["NULL"])).1 (by decide)

lemma mem_of_getLast2 {α : Type} {l : List α} {a : α}
    (h : l.getLast? = some a) : a ∈ l := by
  obtain ⟨hne, hx⟩ := List.mem_getLast?_eq_getLast (Option.mem_def.mpr h)
  rw [hx]
  exact List.getLast_mem hne

lemma sheetLoop_dropLast_ok (cursor : Option Cursor)
    (fk_maps : List FKPropagationMap) (cfg : ImportConfig)
    (raw : List (String × List (List Value))) :
    ∀ (ms : List (String × SheetMapping)) (lk : PkLookup) (pt : List String)
      (sp : SheetProcess),
      sp ∈ (sheetLoop cursor fk_maps cfg raw ms lk pt).sheets.dropLast →
      sp.error = none
  | [], lk, pt, sp => by simp [sheetLoop]
  | (name, m) :: rest, lk, pt, sp => by
    intro hsp
    simp only [sheetLoop] at hsp
    cases hget : aget? raw name with
    | none =>
      simp only [hget] at hsp
      exact sheetLoop_dropLast_ok cursor fk_maps cfg raw rest lk pt sp hsp
    | some df =>
      simp only [hget] at hsp
      cases herr : (processSingleSheet name df m cursor fk_maps lk pt cfg).sp.error with
      | some e =>
        simp only [herr] at hsp
        simp at hsp
      | none =>
        simp only [herr] at hsp
        cases hs : (sheetLoop cursor fk_maps cfg raw rest
            (processSingleSheet name df m cursor fk_maps lk pt cfg).lookup
            (processSingleSheet name df m cursor fk_maps lk pt cfg).processed).sheets with
        | nil =>
          rw [hs] at hsp
          simp at hsp
        | cons b bs =>
          rw [hs] at hsp
          rw [show ((processSingleSheet name df m cursor fk_maps lk pt cfg).sp ::
              b :: bs).dropLast =
            (processSingleSheet name df m cursor fk_maps lk pt cfg).sp ::
              (b :: bs).dropLast from rfl, List.mem_cons] at hsp
          cases hsp with
          | inl h => rw [h]; exact herr
          | inr h =>
            exact sheetLoop_dropLast_ok cursor fk_maps cfg raw rest _ _ sp
              (by rw [hs]; exact h)

lemma sheetLoop_ok_of_not_failed (cursor : Option Cursor)
    (fk_maps : List FKPropagationMap) (cfg : ImportConfig)
    (raw : List (String × List (List Value))) :
    ∀ (ms : List (String × SheetMapping)) (lk : PkLookup) (pt : List String)
      (sp : SheetProcess),
      (sheetLoop cursor fk_maps cfg raw ms lk pt).failed = false →
      sp ∈ (sheetLoop cursor fk_maps cfg raw ms lk pt).sheets →
      sp.error = none
  | [], lk, pt, sp => by simp [sheetLoop]
  | (name, m) :: rest, lk, pt, sp => by
    intro hf hsp
    simp only [sheetLoop] at hf hsp
    cases hget : aget? raw name with
    | none =>
      simp only [hget] at hf hsp
      exact sheetLoop_ok_of_not_failed cursor fk_maps cfg raw rest lk pt sp hf hsp
    | some df =>
      simp only [hget] at hf hsp
      cases herr : (processSingleSheet name df m cursor fk_maps lk pt cfg).sp.error with
      | some e =>
        simp only [herr] at hf
        cases hf
      | none =>
        simp only [herr] at hf hsp
        rw [List.mem_cons] at hsp
        cases hsp with
        | inl h => rw [h]; exact herr
        | inr h =>
          exact sheetLoop_ok_of_not_failed cursor fk_maps cfg raw rest _ _ sp hf h

lemma pfb_dropLast_ok (mappings : List (String × SheetMapping))
    (parse : Except String (List (String × List (List Value))))
    (cursor : Option Cursor) (fk_maps : List FKPropagationMap)
    (lk : PkLookup) (pt : List String) (cfg : ImportConfig) (bt : List TxCmd) :
    ∀ sp ∈ (processFileBody mappings parse cursor fk_maps lk pt cfg bt).sheets.dropLast,
      sp.error = none := by
  intro sp hsp
  unfold processFileBody at hsp
  cases parse with
  | error e => simp at hsp
  | ok raw =>
    dsimp only at hsp
    unfold fileFromLoop at hsp
    by_cases hf : (sheetLoop cursor fk_maps cfg raw mappings lk pt).failed = true
    · rw [if_pos hf] at hsp
      exact sheetLoop_dropLast_ok cursor fk_maps cfg raw mappings lk pt sp hsp
    · rw [if_neg hf] at hsp
      cases cursor with
      | some cur =>
        dsimp only at hsp
        by_cases hc : cur.commitOk = true
        · rw [if_pos hc] at hsp
          exact sheetLoop_dropLast_ok _ fk_maps cfg raw mappings lk pt sp hsp
        · rw [if_neg hc] at hsp
          exact sheetLoop_dropLast_ok _ fk_maps cfg raw mappings lk pt sp hsp
      | none =>
        dsimp only at hsp
        exact sheetLoop_dropLast_ok none fk_maps cfg raw mappings lk pt sp hsp

lemma pfb_last_error (mappings : List (String × SheetMapping))
    (parse : Except String (List (String × List (List Value))))
    (cursor : Option Cursor) (fk_maps : List FKPropagationMap)
    (lk : PkLookup) (pt : List String) (cfg : ImportConfig) (bt : List TxCmd) :
    ∀ sp, (processFileBody mappings parse cursor fk_maps lk pt cfg bt).sheets.getLast? =
        some sp →
      sp.error ≠ none →
      (processFileBody mappings parse cursor fk_maps lk pt cfg bt).status =
        FileStatus.failed ∧
      (cursor.isSome = true →
        (processFileBody mappings parse cursor fk_maps lk pt cfg bt).trace.getLast? =
          some TxCmd.rollbackTx) := by
  intro sp hlast herr
  unfold processFileBody at hlast ⊢
  cases parse with
  | error e => simp at hlast
  | ok raw =>
    dsimp only at hlast ⊢
    unfold fileFromLoop at hlast ⊢
    by_cases hf : (sheetLoop cursor fk_maps cfg raw mappings lk pt).failed = true
    · rw [if_pos hf] at hlast ⊢
      refine ⟨rfl, fun hc => ?_⟩
      show (bt ++ (if cursor.isSome then [TxCmd.rollbackTx] else [])).getLast? =
        some TxCmd.rollbackTx
      rw [if_pos hc]
      exact List.getLast?_concat _
    · exfalso
      apply herr
      rw [if_neg hf] at hlast
      have hf2 : (sheetLoop cursor fk_maps cfg raw mappings lk pt).failed = false :=
        Bool.not_eq_true _ ▸ hf
      apply sheetLoop_ok_of_not_failed cursor fk_maps cfg raw mappings lk pt sp hf2
      cases cursor with
      | some cur =>
        dsimp only at hlast
        by_cases hc : cur.commitOk = true
        · rw [if_pos hc] at hlast
          exact mem_of_getLast2 hlast
        · rw [if_neg hc] at hlast
          exact mem_of_getLast2 hlast
      | none =>
        dsimp only at hlast
        exact mem_of_getLast2 hlast

lemma runFiles_counts (mappings : List (String × SheetMapping))
    (cursor : Option Cursor) (fk_maps : List FKPropagationMap)
    (cfg : ImportConfig) :
    ∀ (files : List (Except String (List (String × List (List Value)))))
      (lk : PkLookup) (pt : List String),
      (runFiles mappings cursor fk_maps cfg files lk pt).statuses.length = files.length ∧
      (runFiles mappings cursor fk_maps cfg files lk pt).success_files +
        (runFiles mappings cursor fk_maps cfg files lk pt).failed_files = files.length ∧
      (runFiles mappings cursor fk_maps cfg files lk pt).failed_files =
        ((runFiles mappings cursor fk_maps cfg files lk pt).statuses.filter
          (fun s => s == FileStatus.failed)).length
  | [], lk, pt => by simp [runFiles]
  | f :: rest, lk, pt => by
    have ih := runFiles_counts mappings cursor fk_maps cfg rest
      (processSingleFile mappings f cursor fk_maps lk pt cfg).lookup
      (processSingleFile mappings f cursor fk_maps lk pt cfg).processed
    simp only [runFiles]
    by_cases hs : (processSingleFile mappings f cursor fk_maps lk pt cfg).status =
        FileStatus.success
    · rw [if_pos hs]
      refine ⟨by simp [ih.1], by simp; omega, ?_⟩
      simp only [List.filter_cons, hs]
      simp [ih.2.2]
    · rw [if_neg hs]
      have hfail : (processSingleFile mappings f cursor fk_maps lk pt cfg).status =
          FileStatus.failed := by
        cases h2 : (processSingleFile mappings f cursor fk_maps lk pt cfg).status
        · exact absurd h2 hs
        · rfl
      refine ⟨by simp [ih.1], by simp; omega, ?_⟩
      simp only [List.filter_cons, hfail]
      simp [ih.2.2]

/-- C8: within one file, every sheet record before the last has no
error (the first failing sheet ends the loop, so remaining configured
sheets are never attempted); when the last sheet record carries an
error the file is finalized failed and, when a store cursor is present,
the last transaction command issued is a rollback; and a failed file
never stops the run — `process_all` records one status per file and
counts every failure while continuing unconditionally. -/
theorem c8_first_sheet_failure_aborts (mappings : List (String × SheetMapping))
    (parse : Except String (List (String × List (List Value))))
    (cursor : Option Cursor) (fk_maps : List FKPropagationMap)
    (lk : PkLookup) (pt : List String) (cfg : ImportConfig)
    (files : List (Except String (List (String × List (List Value))))) :
    (∀ sp ∈ (processSingleFile mappings parse cursor fk_maps lk pt cfg).sheets.dropLast,
      sp.error = none) ∧
    (∀ sp, (processSingleFile mappings parse cursor fk_maps lk pt cfg).sheets.getLast? =
        some sp →
      sp.error ≠ none →
      (processSingleFile mappings parse cursor fk_maps lk pt cfg).status =
        FileStatus.failed ∧
      (cursor.isSome = true →
        (processSingleFile mappings parse cursor fk_maps lk pt cfg).trace.getLast? =
          some TxCmd.rollbackTx)) ∧
    ((processAll mappings files cursor cfg).statuses.length = files.length ∧
     (processAll mappings files cursor cfg).success_files +
       (processAll mappings files cursor cfg).failed_files = files.length ∧
     (processAll mappings files cursor cfg).failed_files =
       ((processAll mappings files cursor cfg).statuses.filter
         (fun s => s == FileStatus.failed)).length) := by
  refine ⟨?_, ?_, ?_⟩
  · intro sp hsp
    unfold processSingleFile at hsp
    cases cursor with
    | some cur =>
      cases hb : cur.beginOk with
      | false =>
        simp only [hb, Bool.not_false, if_pos] at hsp
        simp at hsp
      | true =>
        simp only [hb, Bool.not_true] at hsp
        rw [if_neg (by simp)] at hsp
        exact pfb_dropLast_ok mappings parse (some cur) fk_maps lk pt cfg
          [TxCmd.beginTx] sp hsp
    | none => exact pfb_dropLast_ok mappings parse none fk_maps lk pt cfg [] sp hsp
  · intro sp hlast herr
    unfold processSingleFile at hlast ⊢
    cases cursor with
    | some cur =>
      cases hb : cur.beginOk with
      | false =>
        simp only [hb, Bool.not_false, if_pos] at hlast
        simp at hlast
      | true =>
        simp only [hb, Bool.not_true] at hlast ⊢
        rw [if_neg (by simp)] at hlast ⊢
        exact pfb_last_error mappings parse (some cur) fk_maps lk pt cfg
          [TxCmd.beginTx] sp hlast herr
    | none =>
      exact pfb_last_error mappings parse none fk_maps lk pt cfg [] sp hlast herr
  · exact runFiles_counts mappings cursor (build_fk_propagation_maps cfg) cfg files [] []

/-- C8 witness: a file whose first mapped sheet fails normalization (one
physical row) under an otherwise healthy cursor: the failed sheet is the
last record, the file status is failed, the last transaction command is
the rollback, and a one-file run records one failed status. -/
theorem c8_first_sheet_failure_aborts_witness :
    (processSingleFile mappingsW failingFileW (some cursorOkW) [] [] []
        cfgEmptyW).sheets.getLast? =
      some ⟨"A", "t_a", [], 0, some "sheet A lacks second row header"⟩ ∧
    (some "sheet A lacks second row header" : Option String) ≠ none ∧
    (processSingleFile mappingsW failingFileW (some cursorOkW) [] [] []
        cfgEmptyW).status = FileStatus.failed ∧
    (processSingleFile mappingsW failingFileW (some cursorOkW) [] [] []
        cfgEmptyW).trace.getLast? = some TxCmd.rollbackTx := by
  have h := (c8_first_sheet_failure_aborts mappingsW failingFileW (some cursorOkW)
    [] [] [] cfgEmptyW [failingFileW]).2.1
    ⟨"A", "t_a", [], 0, some "sheet A lacks second row header"⟩ (by rfl) (by simp)
  exact ⟨by rfl, by simp, h.1, h.2 rfl⟩

lemma fkFill_nocursor (m : SheetMapping) (ic : List String)
    (fk_maps : List FKPropagationMap) (lookup : PkLookup)
    (rows : List (List Value)) :
    fkFill m false ic fk_maps lookup rows = rows := by
  unfold fkFill
  simp

lemma mock_sheet_facts (sheet_name : String) (df : List (List Value))
    (m : SheetMapping) (fk_maps : List FKPropagationMap) (lk : PkLookup)
    (pt : List String) (cfg : ImportConfig) :
    (processSingleSheet sheet_name df m none fk_maps lk pt cfg).calls = [] ∧
    ∀ sd, normalize_sheet df sheet_name m.expectedOpt m.default_values
        m.null_sentinels = Except.ok sd →
      (processSingleSheet sheet_name df m none fk_maps lk pt cfg).sp.error = none ∧
      (processSingleSheet sheet_name df m none fk_maps lk pt cfg).sp.inserted_rows =
        sd.rows.length := by
  unfold processSingleSheet
  cases hn : normalize_sheet df sheet_name m.expectedOpt m.default_values
      m.null_sentinels with
  | error e =>
    refine ⟨rfl, fun sd h => ?_⟩
    exact Except.noConfusion h
  | ok sd0 =>
    dsimp only
    by_cases hr : sd0.rows.isEmpty = true
    · rw [if_pos hr]
      refine ⟨rfl, fun sd h => ?_⟩
      rw [Except.ok.injEq] at h
      rw [← h]
      refine ⟨rfl, ?_⟩
      show 0 = sd0.rows.length
      rw [List.isEmpty_iff] at hr
      rw [hr]
      rfl
    · rw [if_neg hr]
      refine ⟨rfl, fun sd h => ?_⟩
      rw [Except.ok.injEq] at h
      rw [← h]
      refine ⟨rfl, ?_⟩
      show (fkFill m false
        (sd0.columns.filter (fun c => !m.sequence_columns.contains c)) fk_maps lk
        (sd0.rows.map (fun rd =>
          (sd0.columns.filter (fun c => !m.sequence_columns.contains c)).map
            (fun c => (aget? rd c).getD Value.null)))).length = sd0.rows.length
      rw [fkFill_nocursor, List.length_map]

lemma psf_trace_none (mappings : List (String × SheetMapping))
    (parse : Except String (List (String × List (List Value))))
    (fk_maps : List FKPropagationMap) (lk : PkLookup) (pt : List String)
    (cfg : ImportConfig) :
    (processSingleFile mappings parse none fk_maps lk pt cfg).trace = [] := by
  unfold processSingleFile processFileBody
  dsimp only
  cases parse with
  | error e => rfl
  | ok raw =>
    dsimp only
    unfold fileFromLoop
    by_cases hf : (sheetLoop none fk_maps cfg raw mappings lk pt).failed = true
    · rw [if_pos hf]
      rfl
    · rw [if_neg hf]

lemma runFiles_trace_none (mappings : List (String × SheetMapping))
    (fk_maps : List FKPropagationMap) (cfg : ImportConfig) :
    ∀ (files : List (Except String (List (String × List (List Value)))))
      (lk : PkLookup) (pt : List String),
      (runFiles mappings none fk_maps cfg files lk pt).trace = []
  | [], lk, pt => rfl
  | f :: rest, lk, pt => by
    have ih := runFiles_trace_none mappings fk_maps cfg rest
      (processSingleFile mappings f none fk_maps lk pt cfg).lookup
      (processSingleFile mappings f none fk_maps lk pt cfg).processed
    simp only [runFiles]
    by_cases hs : (processSingleFile mappings f none fk_maps lk pt cfg).status =
        FileStatus.success
    · rw [if_pos hs]
      show (processSingleFile mappings f none fk_maps lk pt cfg).trace ++ _ = []
      rw [psf_trace_none, ih]
      rfl
    · rw [if_neg hs]
      show (processSingleFile mappings f none fk_maps lk pt cfg).trace ++ _ = []
      rw [psf_trace_none, ih]
      rfl

/-- C9: with no store cursor (mock/dry-run mode) a sheet whose
normalization succeeds finishes without error, issues no store insert
call, and reports as inserted exactly the number of rows built for it;
and a whole run issues no transaction command at all. -/
theorem c9_mock_mode (sheet_name : String) (df : List (List Value))
    (m : SheetMapping) (fk_maps : List FKPropagationMap) (lk : PkLookup)
    (pt : List String) (cfg : ImportConfig) (sd : SheetData)
    (mappings : List (String × SheetMapping))
    (files : List (Except String (List (String × List (List Value)))))
    (cfg2 : ImportConfig) :
    ((processSingleSheet sheet_name df m none fk_maps lk pt cfg).calls = [] ∧
     (normalize_sheet df sheet_name m.expectedOpt m.default_values
        m.null_sentinels = Except.ok sd →
      (processSingleSheet sheet_name df m none fk_maps lk pt cfg).sp.error = none ∧
      (processSingleSheet sheet_name df m none fk_maps lk pt cfg).sp.inserted_rows =
        sd.rows.length)) ∧
    (processAll mappings files none cfg2).trace = [] := by
  refine ⟨⟨(mock_sheet_facts sheet_name df m fk_maps lk pt cfg).1, fun h =>
    (mock_sheet_facts sheet_name df m fk_maps lk pt cfg).2 sd h⟩, ?_⟩
  exact runFiles_trace_none mappings (build_fk_propagation_maps cfg2) cfg2 files [] []

/-- C9 witness: the mock-mode facts applied to a concrete two-row sheet,
discharging the normalization hypothesis by evaluation. -/
theorem c9_mock_mode_witness :
    normalize_sheet goodGridW "A" plainMappingW.expectedOpt
        plainMappingW.default_values plainMappingW.null_sentinels =
      Except.ok ⟨"A", ["col_a"],
        [[("col_a", Value.int 1)], [("col_a", Value.int 2)]]⟩ ∧
    (processSingleSheet "A" goodGridW plainMappingW none [] [] [] cfgEmptyW).sp.error =
      none ∧
    (processSingleSheet "A" goodGridW plainMappingW none [] [] []
        cfgEmptyW).sp.inserted_rows = 2 := by
  have h := ((c9_mock_mode "A" goodGridW plainMappingW [] [] [] cfgEmptyW
    ⟨"A", ["col_a"], [[("col_a", Value.int 1)], [("col_a", Value.int 2)]]⟩
    [] [] cfgEmptyW).1).2 (by rfl)
  exact ⟨by rfl, h.1, h.2⟩

end IwkImport
